import Mathlib

/-
Verification of the telepresence daemon core and its command/version glue.

Part 1 embeds the code under src/pkg/client/userd/commands/commands.go and the
client version helpers (Version / Semver).  Part 2 models the daemon core
components (Session Manager, Outbound Override Engine, Intercept Manager,
Tunnel Transport) from the specification, since their sources are outside the
given tree.
-/

namespace Telepresence

/-! ### Go context values (context.WithValue / ctx.Value) -/

/-- Keys usable with context.WithValue.  The commands package declares the
private key type cwdKey; any other key used elsewhere in the program is
represented abstractly by an index. -/
inductive GoKey
  | cwdKey
  | otherKey (n : Nat)
deriving DecidableEq

/-- Values storable in a Go context.  The type assertion .(string) in GetCwd
distinguishes string values from everything else. -/
inductive GoVal
  | str (s : String)
  | other (n : Nat)
deriving DecidableEq

/-- A Go context, embedded as the chain of WithValue frames (most recent
first); context.Value returns the value of the nearest frame for the key. -/
abbrev Ctx := List (GoKey × GoVal)

/-- Embeds context.WithValue: a new frame shadowing older ones. -/
def ctxWithValue (ctx : Ctx) (k : GoKey) (v : GoVal) : Ctx :=
  (k, v) :: ctx

/-- Embeds ctx.Value: nearest frame for the key, or none. -/
def ctxValue : Ctx → GoKey → Option GoVal
  | [], _ => none
  | (k, v) :: rest, key => if k = key then some v else ctxValue rest key

/-- Embeds WithCwd from commands.go: context.WithValue(ctx, cwdKey\x7b\x7d, cwd). -/
def WithCwd (ctx : Ctx) (cwd : String) : Ctx :=
  ctxWithValue ctx GoKey.cwdKey (GoVal.str cwd)

/-- Embeds GetCwd from commands.go: the string stored under cwdKey, or the
empty string when absent or not a string. -/
def GetCwd (ctx : Ctx) : String :=
  match ctxValue ctx GoKey.cwdKey with
  | some (GoVal.str wd) => wd
  | _ => ""

/-! ### Go errors and cobra commands -/

/-- A Go error value: either a leaf error with a message, or an error produced
by fmt.Errorf with a %w verb, wrapping an inner error behind a message piece. -/
inductive GoError
  | leaf (msg : String)
  | wrapped (pre : String) (inner : GoError)
deriving DecidableEq

/-- The Error() string of a Go error. -/
def GoError.message : GoError → String
  | .leaf m => m
  | .wrapped pre inner => pre ++ inner.message

/-- errors.Unwrap: the error wrapped via %w, if any. -/
def GoError.unwrap : GoError → Option GoError
  | .leaf _ => none
  | .wrapped _ inner => some inner

/-- A cobra command, embedded by its name and its RunE function (arguments to
either a successful run or a returned error). -/
structure Command where
  name : String
  runE : List String → Except GoError Unit

/-- cliutil.CommandGroups: group name to list of commands. -/
abbrev CommandGroups := List (String × List Command)

/-- Modelled from the spec: TraceCommand is declared elsewhere in the commands
package (not under the given sources); the spec treats the command tree as an
external caller, so its original run behavior is abstracted as a successful
no-op. -/
def TraceCommand : Command :=
  { name := "gather-traces", runE := fun _ => Except.ok () }

/-- Modelled from the spec: PushTraces is declared elsewhere in the commands
package (not under the given sources); its original run behavior is abstracted
as a successful no-op. -/
def PushTraces : Command :=
  { name := "upload-traces", runE := fun _ => Except.ok () }

/-- Embeds GetCommands from commands.go: the Tracing group with the two
tracing commands. -/
def GetCommands : CommandGroups :=
  [("Tracing", [TraceCommand, PushTraces])]

/-- Embeds GetCommandsForLocal from commands.go: the same groups, but every
command has its RunE replaced by one returning
fmt.Errorf("unable to run command: %w", err). -/
def GetCommandsForLocal (err : GoError) : CommandGroups :=
  GetCommands.map fun g =>
    (g.1, g.2.map fun c =>
      { c with runE := fun _ =>
          Except.error (GoError.wrapped "unable to run command: " err) })

/-! ### Version and Semver (pkg/client) -/

/-- The main-module information of runtime debug build info, as far as
Version consults it. -/
structure BuildInfo where
  mainVersion : String
deriving DecidableEq

/-- The ambient state read and written by Version: the package-level
version.Version variable, the TELEPRESENCE_VERSION environment variable (the
empty string when unset, as os.Getenv reports it), and the result of
debug.ReadBuildInfo (none when ok is false). -/
structure VersionState where
  versionVar : String
  envTelepresenceVersion : String
  buildInfo : Option BuildInfo
deriving DecidableEq

/-- Embeds Version from pkg/client: prefer the build-time version.Version,
then the TELEPRESENCE_VERSION environment variable (cached into
version.Version), then the build-info main version (also cached), and finally
the literal fallback string. -/
def Version (s : VersionState) : String × VersionState :=
  if s.versionVar ≠ "" then
    (s.versionVar, s)
  else if s.envTelepresenceVersion ≠ "" then
    (s.envTelepresenceVersion, { s with versionVar := s.envTelepresenceVersion })
  else
    match s.buildInfo with
    | some bi => (bi.mainVersion, { s with versionVar := bi.mainVersion })
    | none => ("(unknown version)", s)

/-- A parsed semantic version as blang/semver represents it, restricted to
the fields the program consults. -/
structure SemVer where
  major : Nat
  minor : Nat
  patch : Nat
  pre : List String
  build : List String
deriving DecidableEq

/-- Splits a character list at every occurrence of the separator, like
strings.Split. -/
def splitOnChar (sep : Char) : List Char → List (List Char)
  | [] => [[]]
  | x :: xs =>
    let r := splitOnChar sep xs
    if x = sep then [] :: r
    else
      match r with
      | [] => [[x]]
      | y :: ys => (x :: y) :: ys

/-- Go-style whitespace test for strings.TrimSpace (ASCII portion). -/
def isSpaceChar (c : Char) : Bool :=
  c = ' ' ∨ c = '\t' ∨ c = '\n' ∨ c = '\r'

/-- strings.TrimSpace on a character list. -/
def trimChars (cs : List Char) : List Char :=
  ((cs.dropWhile isSpaceChar).reverse.dropWhile isSpaceChar).reverse

/-- Numeric value of a digit list. -/
def digitsToNat (cs : List Char) : Nat :=
  cs.foldl (fun n c => n * 10 + (c.toNat - 48)) 0

/-- A semver numeric identifier: nonempty, all digits, no leading zero. -/
def parseNumPart (cs : List Char) : Option Nat :=
  match cs with
  | [] => none
  | c :: rest =>
    if (c :: rest).all Char.isDigit then
      if c = '0' ∧ rest ≠ [] then none
      else some (digitsToNat (c :: rest))
    else none

/-- Joins character lists with a separator, like strings.Join. -/
def joinWithChar (sep : Char) : List (List Char) → List Char
  | [] => []
  | [x] => x
  | x :: y :: ys => x ++ sep :: joinWithChar sep (y :: ys)

/-- Embeds semver.Parse from the external blang/semver dependency, to the
depth the program exercises it: exactly three dot-separated parts (the third
taken as everything after the second dot), numeric major and minor, and a
patch part optionally carrying build metadata after a plus and a pre-release
after a hyphen. -/
def semverParse (cs : List Char) : Option SemVer :=
  let parts := splitOnChar '.' cs
  if h : parts.length < 3 then none
  else
    let ma := parts.get ⟨0, by omega⟩
    let mi := parts.get ⟨1, by omega⟩
    let rest := joinWithChar '.' (parts.drop 2)
    match parseNumPart ma, parseNumPart mi with
    | some major, some minor =>
      let buildSplit := splitOnChar '+' rest
      match buildSplit with
      | [] => none
      | patchPre :: buildParts =>
        let preSplit := splitOnChar '-' patchPre
        match preSplit with
        | [] => none
        | patchCs :: preParts =>
          match parseNumPart patchCs with
          | some patch =>
            if (preParts ++ buildParts).all (fun p => p ≠ []) then
              some { major := major, minor := minor, patch := patch,
                     pre := preParts.map (fun p => String.mk p),
                     build := buildParts.map (fun p => String.mk p) }
            else none
          | none => none
    | _, _ => none

/-- Embeds semver.ParseTolerant from the external blang/semver dependency:
trim whitespace, strip a leading v, pad a short version with zero components
unless it carries pre-release or build metadata, then parse. -/
def parseTolerant (s : String) : Option SemVer :=
  let cs := trimChars s.data
  let cs := match cs with
    | 'v' :: rest => rest
    | other => other
  let parts := splitOnChar '.' cs
  if parts.length < 3 then
    match parts.getLast? with
    | none => none
    | some last =>
      if last.any (fun c => c = '+' ∨ c = '-') then none
      else
        semverParse
          (joinWithChar '.' (parts ++ List.replicate (3 - parts.length) ['0']))
  else semverParse cs

/-- Embeds Semver from pkg/client: parse the Version() string tolerantly and
panic (modelled as an error result) when it is unparsable. -/
def Semver (s : VersionState) : Except String SemVer × VersionState :=
  let r := Version s
  match parseTolerant r.1 with
  | some sv => (Except.ok sv, r.2)
  | none =>
    (Except.error ("this binary\x27s version is unparsable: " ++ r.1), r.2)

/-! ### Daemon core, modelled from the specification -/

/-- Modelled from the spec: Session status values of the session state
machine. -/
inductive SessionStatus
  | disconnected
  | connecting
  | connected
  | disconnecting
deriving DecidableEq

/-- Modelled from the spec: the states of one Intercept. -/
inductive InterceptState
  | requested
  | active
  | removing
  | removed
  | failed
deriving DecidableEq

/-- Modelled from the spec: one inbound redirection record of the Intercept
Manager. -/
structure Intercept where
  workload : String
  remotePort : Nat
  localPort : Nat
  state : InterceptState
deriving DecidableEq

/-- Modelled from the spec: the error taxonomy of section 7. -/
inductive ErrKind
  | configError
  | connectError
  | alreadyConnected
  | interceptConflict
  | deploymentNotFound
  | timeoutErr
  | tunnelUnavailable
deriving DecidableEq

/-- Modelled from the spec: the Tunnel Transport connection status. -/
inductive TransportState
  | closed
  | opened
  | failed
deriving DecidableEq

/-- Modelled from the spec: the Remote Agent's reply to an intercept install
request (acknowledgment, rejection, or no answer within the bounded wait). -/
inductive AgentReply
  | ack
  | reject (reason : String)
  | noReply
deriving DecidableEq

/-- The intercept table owned by the Intercept Manager. -/
abbrev InterceptTable := List Intercept

/-- The conflict key of an intercept: its (workload, remote port) pair. -/
def sameKey (w : String) (p : Nat) (i : Intercept) : Bool :=
  i.workload == w && i.remotePort == p

/-- Whether the table holds an Active intercept for the key. -/
def hasActiveFor (t : InterceptTable) (w : String) (p : Nat) : Bool :=
  t.any fun i => sameKey w p i && i.state == InterceptState.active

/-- How many Active intercepts the table holds for the key. -/
def activeCount (t : InterceptTable) (w : String) (p : Nat) : Nat :=
  (t.filter fun i => sameKey w p i && i.state == InterceptState.active).length

/-- Modelled from the spec: AddIntercept validates that no existing Active
intercept conflicts on the key (returning InterceptConflict and leaving the
table unchanged), then drives the new intercept through Requested to Active
on the agent's acknowledgment, or to Failed on rejection or timeout. -/
def AddIntercept (t : InterceptTable) (w : String) (p lp : Nat)
    (reply : AgentReply) : Except ErrKind Unit × InterceptTable :=
  if hasActiveFor t w p then
    (Except.error ErrKind.interceptConflict, t)
  else
    match reply with
    | AgentReply.ack =>
      (Except.ok (), { workload := w, remotePort := p, localPort := lp,
                       state := InterceptState.active } :: t)
    | AgentReply.reject _ =>
      (Except.error ErrKind.deploymentNotFound,
       { workload := w, remotePort := p, localPort := lp,
         state := InterceptState.failed } :: t)
    | AgentReply.noReply =>
      (Except.error ErrKind.timeoutErr,
       { workload := w, remotePort := p, localPort := lp,
         state := InterceptState.failed } :: t)

/-- Modelled from the spec: RemoveIntercept uninstalls every intercept on the
key and succeeds as a no-op when none exists. -/
def RemoveIntercept (t : InterceptTable) (w : String) (p : Nat) :
    Except ErrKind Unit × InterceptTable :=
  (Except.ok (), t.filter fun i => !(sameKey w p i))

/-- One serialized Intercept Manager operation (the spec serializes
session-mutating requests, so concurrent calls are interleaved into a
sequence in which exactly one order wins). -/
inductive InterceptOp
  | add (w : String) (p lp : Nat) (reply : AgentReply)
  | remove (w : String) (p : Nat)

/-- Applies one serialized operation to the intercept table. -/
def applyOp (t : InterceptTable) : InterceptOp → InterceptTable
  | InterceptOp.add w p lp r => (AddIntercept t w p lp r).2
  | InterceptOp.remove w p => (RemoveIntercept t w p).2

/-- Runs a sequence of serialized operations from a table. -/
def runOps (t : InterceptTable) (ops : List InterceptOp) : InterceptTable :=
  ops.foldl applyOp t

/-! ### Override Rule Store and Outbound Override Engine, modelled from the
specification -/

/-- Modelled from the spec: an override pattern is a DNS suffix or a CIDR
(IPv4 base address with a mask length). -/
inductive RulePattern
  | dnsSuffix (s : String)
  | cidr (base : Nat) (maskLen : Nat)
deriving DecidableEq

/-- Modelled from the spec: the action of an override rule. -/
inductive RuleAction
  | divert
  | pass
deriving DecidableEq

/-- Modelled from the spec: one entry of the ordered Rule Store. -/
structure OverrideRule where
  pattern : RulePattern
  action : RuleAction
deriving DecidableEq

/-- A destination of an outbound attempt: a resolved host name or an IPv4
address. -/
inductive Dest
  | host (name : String)
  | addr (ip : Nat)
deriving DecidableEq

/-- Whether a pattern matches a destination: DNS suffixes match host names by
suffix, CIDRs match addresses by their network bits. -/
def patternMatches : RulePattern → Dest → Bool
  | RulePattern.dnsSuffix s, Dest.host h => s.data.isSuffixOf h.data
  | RulePattern.dnsSuffix _, Dest.addr _ => false
  | RulePattern.cidr base len, Dest.addr ip =>
    ip / 2 ^ (32 - len) = base / 2 ^ (32 - len)
  | RulePattern.cidr _ _, Dest.host _ => false

/-- The specificity of a pattern: suffix length for DNS suffixes, mask length
for CIDRs; larger is more specific. -/
def specificity : RulePattern → Nat
  | RulePattern.dnsSuffix s => s.length
  | RulePattern.cidr _ len => len

/-- Modelled from the spec: the matching rule of greatest specificity in the
ordered Rule Store, the earlier rule winning ties. -/
def bestRule (d : Dest) : List OverrideRule → Option OverrideRule
  | [] => none
  | r :: rest =>
    let b := bestRule d rest
    if patternMatches r.pattern d then
      match b with
      | none => some r
      | some b0 =>
        if specificity b0.pattern > specificity r.pattern then some b0
        else some r
    else b

/-- Modelled from the spec: the action taken for a destination — the best
matching rule's action, and Pass when no rule matches. -/
def lookupAction (rules : List OverrideRule) (d : Dest) : RuleAction :=
  match bestRule d rules with
  | some r => r.action
  | none => RuleAction.pass

/-- The state of the Outbound Override Engine visible to one evaluation: the
installed rules, whether the Tunnel Transport is up, and how many tunnel
streams have been opened. -/
structure EngineState where
  rules : List OverrideRule
  transportUp : Bool
  openedStreams : Nat
deriving DecidableEq

/-- The outcome of evaluating one outbound attempt. -/
inductive EvalResult
  | passed
  | diverted (streamId : Nat)
  | unavailable
deriving DecidableEq

/-- Modelled from the spec: evaluating an outbound attempt consults the Rule
Store; Pass leaves everything untouched, Divert opens a tunnel stream, and a
Divert with the transport down fails immediately with TunnelUnavailable. -/
def evaluateOutbound (st : EngineState) (d : Dest) : EvalResult × EngineState :=
  match lookupAction st.rules d with
  | RuleAction.pass => (EvalResult.passed, st)
  | RuleAction.divert =>
    if st.transportUp then
      (EvalResult.diverted st.openedStreams,
       { st with openedStreams := st.openedStreams + 1 })
    else (EvalResult.unavailable, st)

/-! ### Session Manager, modelled from the specification -/

/-- Modelled from the spec: the daemon state owned by the Session Manager. -/
structure Daemon where
  session : SessionStatus
  overrideInstalled : Bool
  intercepts : InterceptTable
  transport : TransportState
deriving DecidableEq

/-- The daemon state before any connect. -/
def initialDaemon : Daemon :=
  { session := SessionStatus.disconnected, overrideInstalled := false,
    intercepts := [], transport := TransportState.closed }

/-- The environment outcome of one connect attempt: the selected context is
invalid, the cluster or agent is unreachable, or the session is established
under a session identifier. -/
inductive ConnectOutcome
  | badContext
  | unreachable
  | established (sessionId : String)
deriving DecidableEq

/-- Modelled from the spec: Connect establishes the transport and starts the
engine and manager, failing with ConfigError on a bad context and
ConnectError when unreachable; any step failure during Connecting rolls back
fully to Disconnected with no partial override installation, and a connect on
an already connected daemon is refused with AlreadyConnected. -/
def Connect (d : Daemon) (outcome : ConnectOutcome) :
    Except ErrKind Unit × Daemon :=
  if d.session = SessionStatus.connected then
    (Except.error ErrKind.alreadyConnected, d)
  else
    match outcome with
    | ConnectOutcome.badContext =>
      (Except.error ErrKind.configError,
       { d with session := SessionStatus.disconnected,
                overrideInstalled := false,
                transport := TransportState.closed })
    | ConnectOutcome.unreachable =>
      (Except.error ErrKind.connectError,
       { d with session := SessionStatus.disconnected,
                overrideInstalled := false,
                transport := TransportState.closed })
    | ConnectOutcome.established _ =>
      (Except.ok (),
       { d with session := SessionStatus.connected,
                overrideInstalled := true,
                transport := TransportState.opened })

/-- Modelled from the spec: Disconnect tears down the Outbound Override
Engine, removes all Intercepts, closes the Tunnel Transport and transitions
to Disconnected; it always succeeds, with best-effort cleanup even when the
transport is already broken. -/
def Disconnect (_d : Daemon) : Except ErrKind Unit × Daemon :=
  (Except.ok (),
   { session := SessionStatus.disconnected, overrideInstalled := false,
     intercepts := [], transport := TransportState.closed })

/-- Modelled from the spec: the in-memory status report. -/
structure StatusReport where
  session : SessionStatus
  outboundActive : Bool
  activeIntercepts : List Intercept
deriving DecidableEq

/-- Modelled from the spec: Status reads the in-memory state only. -/
def Status (d : Daemon) : StatusReport :=
  { session := d.session, outboundActive := d.overrideInstalled,
    activeIntercepts :=
      d.intercepts.filter fun i => i.state == InterceptState.active }

/-- Whether an outbound attempt to the destination is diverted through the
tunnel and succeeds, given the daemon state: the override must be installed,
the rules must select Divert, and the transport must be open. -/
def divertSucceeds (d : Daemon) (rules : List OverrideRule) (dest : Dest) :
    Bool :=
  d.overrideInstalled && lookupAction rules dest == RuleAction.divert &&
    d.transport == TransportState.opened

/-! ### Tunnel Transport heartbeat, modelled from the specification -/

/-- The joint state the heartbeat watchdog acts on: the transport and the
session it cascades to, plus the time since the last heartbeat frame, in
ticks. -/
structure TunnelSystem where
  transport : TransportState
  session : SessionStatus
  sinceHeartbeat : Nat
deriving DecidableEq

/-- One discrete event seen by the transport: a clock tick or an arriving
heartbeat frame. -/
inductive TransportEvent
  | tick
  | heartbeat
deriving DecidableEq

/-- Modelled from the spec: a heartbeat frame resets the silence clock; a
tick advances it, and once the silence exceeds the timeout window the
transport is marked Failed, which cascades to Session teardown in the same
step. -/
def stepTransport (timeoutTicks : Nat) (s : TunnelSystem) :
    TransportEvent → TunnelSystem
  | TransportEvent.heartbeat => { s with sinceHeartbeat := 0 }
  | TransportEvent.tick =>
    if s.transport = TransportState.opened then
      if s.sinceHeartbeat + 1 > timeoutTicks then
        { transport := TransportState.failed,
          session := SessionStatus.disconnected,
          sinceHeartbeat := s.sinceHeartbeat + 1 }
      else { s with sinceHeartbeat := s.sinceHeartbeat + 1 }
    else s

/-- Runs the transport watchdog over a sequence of events. -/
def runTransport (timeoutTicks : Nat) (s : TunnelSystem)
    (evs : List TransportEvent) : TunnelSystem :=
  evs.foldl (stepTransport timeoutTicks) s

/-! ### Theorems -/

/-- Claim C8: for every context ctx and every string cwd,
GetCwd (WithCwd ctx cwd) returns exactly cwd, and GetCwd returns the empty
string on every context to which WithCwd was never applied (no frame of the
context carries cwdKey). -/
theorem getCwd_withCwd_roundtrip (ctx : Ctx) (cwd : String) :
    GetCwd (WithCwd ctx cwd) = cwd ∧
    ((∀ p ∈ ctx, p.1 ≠ GoKey.cwdKey) → GetCwd ctx = "") := by
  constructor
  · rfl
  · intro h
    have hnone : ∀ (l : Ctx), (∀ p ∈ l, p.1 ≠ GoKey.cwdKey) →
        ctxValue l GoKey.cwdKey = none := by
      intro l
      induction l with
      | nil => intro _; rfl
      | cons p rest ih =>
        intro hl
        obtain ⟨k, v⟩ := p
        have hk : k ≠ GoKey.cwdKey := hl (k, v) (List.mem_cons_self _ _)
        simp only [ctxValue, if_neg hk]
        exact ih fun q hq => hl q (List.mem_cons_of_mem _ hq)
    unfold GetCwd
    rw [hnone ctx h]

/-- Witness for C8 at a concrete context and working directory. -/
theorem getCwd_withCwd_roundtrip_witness :
    GetCwd (WithCwd [(GoKey.otherKey 0, GoVal.other 1)] "/tmp/work")
        = "/tmp/work" ∧
    GetCwd [(GoKey.otherKey 0, GoVal.other 1)] = "" := by
  have h := getCwd_withCwd_roundtrip [(GoKey.otherKey 0, GoVal.other 1)]
    "/tmp/work"
  exact ⟨h.1, h.2 (by decide)⟩

/-- Claim C9: GetCommandsForLocal err returns command groups with the same
group names and command names as GetCommands, and every returned command,
when run with any arguments, fails with an error that wraps err under the
message piece "unable to run command: "; no command runs its original
behavior. -/
theorem getCommandsForLocal_disables (err : GoError) :
    (GetCommandsForLocal err).map Prod.fst = GetCommands.map Prod.fst ∧
    (GetCommandsForLocal err).map (fun g => g.2.map Command.name)
      = GetCommands.map (fun g => g.2.map Command.name) ∧
    ∀ g ∈ GetCommandsForLocal err, ∀ c ∈ g.2, ∀ args,
      c.runE args
          = Except.error (GoError.wrapped "unable to run command: " err) ∧
      ∃ e, c.runE args = Except.error e ∧ e.unwrap = some err ∧
        e.message = "unable to run command: " ++ err.message := by
  refine ⟨rfl, rfl, ?_⟩
  intro g hg c hc args
  simp only [GetCommandsForLocal, GetCommands, List.map, List.mem_singleton]
    at hg
  subst hg
  simp only [TraceCommand, PushTraces, List.mem_cons,
    List.not_mem_nil, or_false] at hc
  rcases hc with hc | hc <;> subst hc <;>
    exact ⟨rfl, GoError.wrapped "unable to run command: " err, rfl, rfl, rfl⟩

/-- Witness for C9: the first command of the first group returned for a
concrete error is not runnable and reports the wrapped error. -/
theorem getCommandsForLocal_disables_witness :
    (((GetCommandsForLocal (GoError.leaf "no daemon")).headD ("", [])).2.headD
        { name := "", runE := fun _ => Except.ok () }).runE ["x"]
      = Except.error (GoError.wrapped "unable to run command: "
          (GoError.leaf "no daemon")) := by
  have h := getCommandsForLocal_disables (GoError.leaf "no daemon")
  exact (h.2.2 _ (List.mem_cons_self _ _) _ (List.mem_cons_self _ _) ["x"]).1

/-- Counterexample to claim C10 as stated: with the build-time version and
the environment variable both empty and build info available but carrying an
empty main-module version, Version() returns the empty string. -/
theorem version_empty_counterexample :
    (Version { versionVar := "", envTelepresenceVersion := "",
               buildInfo := some { mainVersion := "" } }).1 = "" := rfl

/-- Claim C10 (amended): Version returns the build-time version.Version when
nonempty, else the TELEPRESENCE_VERSION environment variable (cached into
version.Version) when nonempty, else — when build info is available — its
main version verbatim (cached, and possibly empty), else the literal
"(unknown version)"; it can return the empty string only when build info
reports an empty main version, and Semver panics in the fallback
configuration since "(unknown version)" is not parsable. -/
theorem version_fallback_order (s : VersionState) :
    (s.versionVar ≠ "" → Version s = (s.versionVar, s)) ∧
    (s.versionVar = "" → s.envTelepresenceVersion ≠ "" →
      Version s = (s.envTelepresenceVersion,
        { s with versionVar := s.envTelepresenceVersion })) ∧
    (∀ bi, s.versionVar = "" → s.envTelepresenceVersion = "" →
      s.buildInfo = some bi →
      Version s = (bi.mainVersion, { s with versionVar := bi.mainVersion })) ∧
    (s.versionVar = "" → s.envTelepresenceVersion = "" → s.buildInfo = none →
      Version s = ("(unknown version)", s) ∧
      (Semver s).1 = Except.error
        ("this binary\x27s version is unparsable: (unknown version)")) ∧
    ((Version s).1 = "" →
      s.versionVar = "" ∧ s.envTelepresenceVersion = "" ∧
      s.buildInfo = some { mainVersion := "" }) := by
  have hpt : parseTolerant "(unknown version)" = none := by decide
  refine ⟨?_, ?_, ?_, ?_, ?_⟩
  · intro h1
    simp [Version, h1]
  · intro h1 h2
    simp [Version, h1, h2]
  · intro bi h1 h2 h3
    simp [Version, h1, h2, h3]
  · intro h1 h2 h3
    have hv : Version s = ("(unknown version)", s) := by
      simp [Version, h1, h2, h3]
    refine ⟨hv, ?_⟩
    simp [Semver, hv, hpt]
  · intro hempty
    by_cases h1 : s.versionVar = ""
    · by_cases h2 : s.envTelepresenceVersion = ""
      · match h3 : s.buildInfo with
        | some bi =>
          have hv : (Version s).1 = bi.mainVersion := by
            simp [Version, h1, h2, h3]
          refine ⟨h1, h2, ?_⟩
          rw [← hempty, hv]
        | none =>
          have : (Version s).1 = "(unknown version)" := by
            simp [Version, h1, h2, h3]
          rw [this] at hempty
          exact absurd hempty (by decide)
      · have : (Version s).1 = s.envTelepresenceVersion := by
          simp [Version, h1, h2]
        rw [this] at hempty
        exact absurd hempty h2
    · have : (Version s).1 = s.versionVar := by
        simp [Version, h1]
      rw [this] at hempty
      exact absurd hempty h1

/-- Witness for C10 (amended) at the all-absent configuration. -/
theorem version_fallback_order_witness :
    Version { versionVar := "", envTelepresenceVersion := "",
              buildInfo := none }
      = ("(unknown version)",
         { versionVar := "", envTelepresenceVersion := "",
           buildInfo := none }) ∧
    (Semver { versionVar := "", envTelepresenceVersion := "",
              buildInfo := none }).1
      = Except.error
          ("this binary\x27s version is unparsable: (unknown version)") := by
  have h := version_fallback_order
    { versionVar := "", envTelepresenceVersion := "", buildInfo := none }
  exact ⟨(h.2.2.2.1 rfl rfl rfl).1, (h.2.2.2.1 rfl rfl rfl).2⟩

/-- Counting active intercepts through a cons. -/
theorem activeCount_cons (i : Intercept) (t : InterceptTable) (w : String)
    (p : Nat) :
    activeCount (i :: t) w p =
      (if (sameKey w p i && i.state == InterceptState.active) = true
       then 1 else 0) + activeCount t w p := by
  unfold activeCount
  rw [List.filter_cons]
  split
  · simp [Nat.add_comm]
  · simp

/-- A table with no active intercept on the key counts zero for it. -/
theorem activeCount_eq_zero (t : InterceptTable) (w : String) (p : Nat)
    (h : hasActiveFor t w p = false) : activeCount t w p = 0 := by
  unfold hasActiveFor at h
  unfold activeCount
  rw [List.length_eq_zero]
  rw [List.filter_eq_nil_iff]
  intro i hi
  rw [List.any_eq_false] at h
  simpa using h i hi

/-- Filtering a table never increases the active count of any key. -/
theorem activeCount_filter_le (q : Intercept → Bool) (t : InterceptTable)
    (w : String) (p : Nat) :
    activeCount (t.filter q) w p ≤ activeCount t w p := by
  unfold activeCount
  exact ((List.filter_sublist t).filter _).length_le

/-- One serialized Intercept Manager operation preserves the at-most-one
active-per-key invariant. -/
theorem applyOp_preserves_invariant (t : InterceptTable)
    (h : ∀ w p, activeCount t w p ≤ 1) (op : InterceptOp) :
    ∀ w p, activeCount (applyOp t op) w p ≤ 1 := by
  intro w p
  cases op with
  | remove w0 p0 =>
    exact le_trans (activeCount_filter_le _ t w p) (h w p)
  | add w0 p0 lp r =>
    simp only [applyOp, AddIntercept]
    by_cases hc : hasActiveFor t w0 p0
    · simp only [hc, if_true]
      exact h w p
    · rw [Bool.not_eq_true] at hc
      simp only [hc, Bool.false_eq_true, if_false]
      cases r with
      | ack =>
        rw [activeCount_cons]
        by_cases hk : (sameKey w p
            { workload := w0, remotePort := p0, localPort := lp,
              state := InterceptState.active } &&
            InterceptState.active == InterceptState.active) = true
        · have hkey : w0 = w ∧ p0 = p := by
            simpa [sameKey] using hk
          rw [if_pos hk]
          have h0 : activeCount t w p = 0 := by
            rw [← hkey.1, ← hkey.2]
            exact activeCount_eq_zero t w0 p0 hc
          omega
        · rw [if_neg hk]
          have := h w p
          omega
      | reject reason =>
        rw [activeCount_cons]
        simp only [sameKey, Bool.and_eq_true]
        rw [if_neg (by simp)]
        have := h w p
        omega
      | noReply =>
        rw [activeCount_cons]
        rw [if_neg (by simp)]
        have := h w p
        omega

/-- Running serialized operations preserves the invariant. -/
theorem runOps_preserves_invariant (ops : List InterceptOp)
    (t : InterceptTable) (h : ∀ w p, activeCount t w p ≤ 1) :
    ∀ w p, activeCount (runOps t ops) w p ≤ 1 := by
  induction ops generalizing t with
  | nil => exact h
  | cons op rest ih =>
    exact ih (applyOp t op) (applyOp_preserves_invariant t h op)

/-- Claim C1: every serialized sequence of Intercept Manager operations keeps
at most one Active intercept per (workload, remote port) pair, and an
AddIntercept immediately followed by another AddIntercept on the same key
succeeds once, returns InterceptConflict the second time, leaves the table
unchanged by the losing call, and leaves exactly one Active intercept. -/
theorem addIntercept_conflict_invariant :
    (∀ ops w p, activeCount (runOps [] ops) w p ≤ 1) ∧
    (∀ w p lp lp2,
      (AddIntercept [] w p lp AgentReply.ack).1 = Except.ok () ∧
      (AddIntercept (AddIntercept [] w p lp AgentReply.ack).2 w p lp2
          AgentReply.ack).1 = Except.error ErrKind.interceptConflict ∧
      (AddIntercept (AddIntercept [] w p lp AgentReply.ack).2 w p lp2
          AgentReply.ack).2 = (AddIntercept [] w p lp AgentReply.ack).2 ∧
      activeCount (AddIntercept (AddIntercept [] w p lp AgentReply.ack).2 w p
          lp2 AgentReply.ack).2 w p = 1) := by
  constructor
  · intro ops w p
    exact runOps_preserves_invariant ops [] (by
      intro w0 p0
      simp [activeCount]) w p
  · intro w p lp lp2
    have h1 : hasActiveFor [] w p = false := rfl
    have ht : (AddIntercept [] w p lp AgentReply.ack).2 =
        [{ workload := w, remotePort := p, localPort := lp,
           state := InterceptState.active }] := by
      simp [AddIntercept, h1]
    have h2 : hasActiveFor
        [{ workload := w, remotePort := p, localPort := lp,
           state := InterceptState.active }] w p = true := by
      simp [hasActiveFor, sameKey]
    refine ⟨by simp [AddIntercept, h1], ?_, ?_, ?_⟩
    · rw [ht]
      simp [AddIntercept, h2]
    · rw [ht]
      simp [AddIntercept, h2]
    · rw [ht]
      simp [AddIntercept, h2, activeCount, sameKey]

/-- Claim C3: RemoveIntercept is idempotent: removing a key with no intercept
in the table is a no-op success leaving the table unchanged, and a second
RemoveIntercept immediately after a first is a no-op success. -/
theorem removeIntercept_idempotent (t : InterceptTable) (w : String)
    (p : Nat) :
    ((∀ i ∈ t, sameKey w p i = false) →
      RemoveIntercept t w p = (Except.ok (), t)) ∧
    RemoveIntercept (RemoveIntercept t w p).2 w p
      = (Except.ok (), (RemoveIntercept t w p).2) := by
  constructor
  · intro h
    unfold RemoveIntercept
    congr 1
    apply List.filter_eq_self.mpr
    intro i hi
    simp [h i hi]
  · unfold RemoveIntercept
    congr 1
    apply List.filter_eq_self.mpr
    intro i hi
    exact (List.mem_filter.mp hi).2

/-- Witness for C3 at a concrete table and key. -/
theorem removeIntercept_idempotent_witness :
    RemoveIntercept
        [{ workload := "other", remotePort := 1, localPort := 2,
           state := InterceptState.active }] "echo-easy" 8080
      = (Except.ok (),
         [{ workload := "other", remotePort := 1, localPort := 2,
            state := InterceptState.active }]) ∧
    RemoveIntercept
        (RemoveIntercept
          [{ workload := "other", remotePort := 1, localPort := 2,
             state := InterceptState.active }] "echo-easy" 8080).2
        "echo-easy" 8080
      = (Except.ok (),
         (RemoveIntercept
           [{ workload := "other", remotePort := 1, localPort := 2,
              state := InterceptState.active }] "echo-easy" 8080).2) := by
  have h := removeIntercept_idempotent
    [{ workload := "other", remotePort := 1, localPort := 2,
       state := InterceptState.active }] "echo-easy" 8080
  exact ⟨h.1 (by decide), h.2⟩

/-- Claim C2: a failing Connect surfaces a typed error result (ConfigError
for a bad cluster context, ConnectError when unreachable) and the session
rolls back fully to Disconnected: the daemon is not left Connected and no
partial outbound-override installation remains. -/
theorem connect_failure_rollback (d : Daemon)
    (h : d.session ≠ SessionStatus.connected) :
    (Connect d ConnectOutcome.badContext).1
        = Except.error ErrKind.configError ∧
    (Connect d ConnectOutcome.badContext).2.session
        = SessionStatus.disconnected ∧
    (Connect d ConnectOutcome.badContext).2.overrideInstalled = false ∧
    (Connect d ConnectOutcome.badContext).2.transport
        = TransportState.closed ∧
    (Connect d ConnectOutcome.unreachable).1
        = Except.error ErrKind.connectError ∧
    (Connect d ConnectOutcome.unreachable).2.session
        = SessionStatus.disconnected ∧
    (Connect d ConnectOutcome.unreachable).2.overrideInstalled = false := by
  simp [Connect, h]

/-- Witness for C2 at the initial daemon state. -/
theorem connect_failure_rollback_witness :
    (Connect initialDaemon ConnectOutcome.badContext).1
        = Except.error ErrKind.configError ∧
    (Connect initialDaemon ConnectOutcome.badContext).2.session
        = SessionStatus.disconnected ∧
    (Connect initialDaemon ConnectOutcome.badContext).2.overrideInstalled
        = false ∧
    (Connect initialDaemon ConnectOutcome.badContext).2.transport
        = TransportState.closed ∧
    (Connect initialDaemon ConnectOutcome.unreachable).1
        = Except.error ErrKind.connectError ∧
    (Connect initialDaemon ConnectOutcome.unreachable).2.session
        = SessionStatus.disconnected ∧
    (Connect initialDaemon ConnectOutcome.unreachable).2.overrideInstalled
        = false :=
  connect_failure_rollback initialDaemon (by decide)

/-- Claim C4: Disconnect always succeeds from every daemon state, even when
the transport is already broken; after it returns the Override Engine is not
installed, all intercepts are removed, the session is Disconnected, Status
reports the outbound override inactive, and no diverted traffic succeeds
thereafter. -/
theorem disconnect_always_cleans (d : Daemon) :
    (Disconnect d).1 = Except.ok () ∧
    (Disconnect d).2.session = SessionStatus.disconnected ∧
    (Disconnect d).2.overrideInstalled = false ∧
    (Disconnect d).2.intercepts = [] ∧
    (Disconnect d).2.transport = TransportState.closed ∧
    (Status (Disconnect d).2).outboundActive = false ∧
    (Status (Disconnect d).2).activeIntercepts = [] ∧
    ∀ rules dest, divertSucceeds (Disconnect d).2 rules dest = false := by
  simp [Disconnect, Status, divertSucceeds]

/-- The matching rule of greatest specificity returned by bestRule, or the
absence of any matching rule when it returns none. -/
theorem bestRule_spec (d : Dest) (rules : List OverrideRule) :
    (bestRule d rules = none →
      ∀ r ∈ rules, patternMatches r.pattern d = false) ∧
    (∀ r0, bestRule d rules = some r0 →
      r0 ∈ rules ∧ patternMatches r0.pattern d = true ∧
      ∀ r2 ∈ rules, patternMatches r2.pattern d = true →
        specificity r2.pattern ≤ specificity r0.pattern) := by
  induction rules with
  | nil =>
    refine ⟨fun _ r hr => absurd hr (List.not_mem_nil r), fun r0 h => ?_⟩
    simp [bestRule] at h
  | cons r rest ih =>
    constructor
    · intro hnone r1 hr1
      by_cases hm : patternMatches r.pattern d = true
      · exfalso
        simp only [bestRule, hm, if_true] at hnone
        cases hb : bestRule d rest with
        | none => rw [hb] at hnone; simp at hnone
        | some b0 =>
          rw [hb] at hnone
          change (if specificity b0.pattern > specificity r.pattern
            then some b0 else some r) = none at hnone
          by_cases hs : specificity b0.pattern > specificity r.pattern
          · rw [if_pos hs] at hnone; simp at hnone
          · rw [if_neg hs] at hnone; simp at hnone
      · have hm2 : patternMatches r.pattern d = false := by simpa using hm
        simp only [bestRule, hm2, Bool.false_eq_true, if_false] at hnone
        rcases List.mem_cons.mp hr1 with h | h
        · rw [h]; exact hm2
        · exact ih.1 hnone r1 h
    · intro r0 hsome
      by_cases hm : patternMatches r.pattern d = true
      · simp only [bestRule, hm, if_true] at hsome
        cases hb : bestRule d rest with
        | none =>
          rw [hb] at hsome
          have hr0 : r = r0 := by simpa using hsome
          subst hr0
          refine ⟨List.mem_cons_self _ _, hm, ?_⟩
          intro r2 hr2 hm2
          rcases List.mem_cons.mp hr2 with h | h
          · rw [h]
          · rw [ih.1 hb r2 h] at hm2
            exact absurd hm2 (by simp)
        | some b0 =>
          rw [hb] at hsome
          change (if specificity b0.pattern > specificity r.pattern
            then some b0 else some r) = some r0 at hsome
          by_cases hs : specificity b0.pattern > specificity r.pattern
          · rw [if_pos hs] at hsome
            have hr0 : b0 = r0 := by simpa using hsome
            subst hr0
            obtain ⟨hmem, hb0m, hmax⟩ := ih.2 b0 hb
            refine ⟨List.mem_cons_of_mem _ hmem, hb0m, ?_⟩
            intro r2 hr2 hm2
            rcases List.mem_cons.mp hr2 with h | h
            · rw [h]; omega
            · exact hmax r2 h hm2
          · rw [if_neg hs] at hsome
            have hr0 : r = r0 := by simpa using hsome
            subst hr0
            refine ⟨List.mem_cons_self _ _, hm, ?_⟩
            intro r2 hr2 hm2
            rcases List.mem_cons.mp hr2 with h | h
            · rw [h]
            · have := (ih.2 b0 hb).2.2 r2 h hm2
              omega
      · have hm2 : patternMatches r.pattern d = false := by simpa using hm
        simp only [bestRule, hm2, Bool.false_eq_true, if_false] at hsome
        obtain ⟨hmem, hb0m, hmax⟩ := ih.2 r0 hsome
        refine ⟨List.mem_cons_of_mem _ hmem, hb0m, ?_⟩
        intro r2 hr2 hm3
        rcases List.mem_cons.mp hr2 with h | h
        · rw [h] at hm3
          rw [hm2] at hm3
          exact absurd hm3 (by simp)
        · exact hmax r2 h hm3

/-- Claim C5: for every rule set and destination the engine selects the rule
by greatest specificity (longest suffix, most specific CIDR) among the
matching rules, and when no rule matches the action is Pass — only
explicitly matched traffic is diverted. -/
theorem lookupAction_longest_match (rules : List OverrideRule) (d : Dest) :
    ((∀ r ∈ rules, patternMatches r.pattern d = false) →
      lookupAction rules d = RuleAction.pass) ∧
    (bestRule d rules = none → lookupAction rules d = RuleAction.pass) ∧
    (∀ r0, bestRule d rules = some r0 →
      r0 ∈ rules ∧ patternMatches r0.pattern d = true ∧
      lookupAction rules d = r0.action ∧
      ∀ r2 ∈ rules, patternMatches r2.pattern d = true →
        specificity r2.pattern ≤ specificity r0.pattern) := by
  refine ⟨?_, ?_, ?_⟩
  · intro hall
    cases hb : bestRule d rules with
    | none => simp [lookupAction, hb]
    | some r0 =>
      have hsp := (bestRule_spec d rules).2 r0 hb
      rw [hall r0 hsp.1] at hsp
      exact absurd hsp.2.1 (by simp)
  · intro hb
    simp [lookupAction, hb]
  · intro r0 hb
    have hsp := (bestRule_spec d rules).2 r0 hb
    exact ⟨hsp.1, hsp.2.1, by simp [lookupAction, hb], hsp.2.2⟩

/-- Witness for C5: a concrete rule set where the most specific suffix wins
and an unmatched destination passes. -/
theorem lookupAction_longest_match_witness :
    lookupAction
        [{ pattern := RulePattern.dnsSuffix "cluster.local",
           action := RuleAction.divert }]
        (Dest.host "example.com") = RuleAction.pass ∧
    lookupAction
        [{ pattern := RulePattern.dnsSuffix "cluster.local",
           action := RuleAction.divert }]
        (Dest.host "echo-easy.svc.cluster.local") = RuleAction.divert := by
  constructor
  · exact (lookupAction_longest_match
      [{ pattern := RulePattern.dnsSuffix "cluster.local",
         action := RuleAction.divert }] (Dest.host "example.com")).1
      (by decide)
  · exact ((lookupAction_longest_match
      [{ pattern := RulePattern.dnsSuffix "cluster.local",
         action := RuleAction.divert }]
      (Dest.host "echo-easy.svc.cluster.local")).2.2
      { pattern := RulePattern.dnsSuffix "cluster.local",
        action := RuleAction.divert } (by decide)).2.2.1

/-- Claim C6: evaluating a destination against a rule set is deterministic —
equal inputs give equal results — and side-effect-free whenever the result
is not a diversion: the engine state is unchanged and no tunnel stream is
opened. -/
theorem evaluateOutbound_deterministic_pure (st st2 : EngineState)
    (d d2 : Dest) :
    (st = st2 → d = d2 → evaluateOutbound st d = evaluateOutbound st2 d2) ∧
    (∀ res st3, evaluateOutbound st d = (res, st3) →
      (∀ sid, res ≠ EvalResult.diverted sid) →
      st3 = st ∧ st3.openedStreams = st.openedStreams) := by
  constructor
  · intro h1 h2
    rw [h1, h2]
  · intro res st3 heval hnd
    unfold evaluateOutbound at heval
    cases hl : lookupAction st.rules d with
    | pass =>
      rw [hl] at heval
      have h3 : st3 = st := congrArg Prod.snd heval.symm
      exact ⟨h3, by rw [h3]⟩
    | divert =>
      rw [hl] at heval
      by_cases ht : st.transportUp = true
      · rw [if_pos ht] at heval
        exact absurd (congrArg Prod.fst heval.symm)
          (by simpa using (hnd st.openedStreams).symm ∘ Eq.symm)
      · rw [if_neg ht] at heval
        have h3 : st3 = st := congrArg Prod.snd heval.symm
        exact ⟨h3, by rw [h3]⟩

/-- Witness for C6: a miss on a concrete rule set leaves the concrete engine
state untouched and opens no stream. -/
theorem evaluateOutbound_deterministic_pure_witness :
    (evaluateOutbound
        { rules := [{ pattern := RulePattern.dnsSuffix "cluster.local",
                      action := RuleAction.divert }],
          transportUp := true, openedStreams := 0 }
        (Dest.host "example.com")).2
      = { rules := [{ pattern := RulePattern.dnsSuffix "cluster.local",
                      action := RuleAction.divert }],
          transportUp := true, openedStreams := 0 } ∧
    (evaluateOutbound
        { rules := [{ pattern := RulePattern.dnsSuffix "cluster.local",
                      action := RuleAction.divert }],
          transportUp := true, openedStreams := 0 }
        (Dest.host "example.com")).2.openedStreams = 0 := by
  have h := (evaluateOutbound_deterministic_pure
    { rules := [{ pattern := RulePattern.dnsSuffix "cluster.local",
                  action := RuleAction.divert }],
      transportUp := true, openedStreams := 0 }
    { rules := [{ pattern := RulePattern.dnsSuffix "cluster.local",
                  action := RuleAction.divert }],
      transportUp := true, openedStreams := 0 }
    (Dest.host "example.com") (Dest.host "example.com")).2
    (evaluateOutbound
      { rules := [{ pattern := RulePattern.dnsSuffix "cluster.local",
                    action := RuleAction.divert }],
        transportUp := true, openedStreams := 0 }
      (Dest.host "example.com")).1
    (evaluateOutbound
      { rules := [{ pattern := RulePattern.dnsSuffix "cluster.local",
                    action := RuleAction.divert }],
        transportUp := true, openedStreams := 0 }
      (Dest.host "example.com")).2
    rfl (fun sid h => nomatch h)
  exact ⟨h.1, h.2⟩

/-- Ticks leave a transport alone once it is no longer open. -/
theorem runTransport_stays (T : Nat) (s : TunnelSystem)
    (h : s.transport ≠ TransportState.opened) (k : Nat) :
    runTransport T s (List.replicate k TransportEvent.tick) = s := by
  induction k with
  | zero => rfl
  | succ n ih =>
    rw [List.replicate_succ]
    have hstep : stepTransport T s TransportEvent.tick = s := by
      simp [stepTransport, h]
    show runTransport T (stepTransport T s TransportEvent.tick)
      (List.replicate n TransportEvent.tick) = s
    rw [hstep]
    exact ih

/-- Enough silent ticks drive an open transport to Failed with the session
cascaded to Disconnected. -/
theorem runTransport_timeout (T : Nat) : ∀ (k : Nat) (s : TunnelSystem),
    s.transport = TransportState.opened →
    T + 1 ≤ k + s.sinceHeartbeat → 1 ≤ k →
    (runTransport T s (List.replicate k TransportEvent.tick)).transport
        = TransportState.failed ∧
    (runTransport T s (List.replicate k TransportEvent.tick)).session
        = SessionStatus.disconnected := by
  intro k
  induction k with
  | zero =>
    intro s _ _ hk
    omega
  | succ n ih =>
    intro s hopen hle _
    rw [List.replicate_succ]
    show (runTransport T (stepTransport T s TransportEvent.tick)
        (List.replicate n TransportEvent.tick)).transport
          = TransportState.failed ∧
      (runTransport T (stepTransport T s TransportEvent.tick)
        (List.replicate n TransportEvent.tick)).session
          = SessionStatus.disconnected
    by_cases hto : s.sinceHeartbeat + 1 > T
    · have hfail : stepTransport T s TransportEvent.tick =
          { transport := TransportState.failed,
            session := SessionStatus.disconnected,
            sinceHeartbeat := s.sinceHeartbeat + 1 } := by
        simp [stepTransport, hopen, hto]
      rw [hfail, runTransport_stays T _ (by simp) n]
      exact ⟨rfl, rfl⟩
    · have hstep : stepTransport T s TransportEvent.tick =
          { s with sinceHeartbeat := s.sinceHeartbeat + 1 } := by
        simp [stepTransport, hopen, hto]
      rw [hstep]
      exact ih _ hopen (by simp; omega) (by omega)

/-- Claim C7: when no heartbeat frame arrives after the last one, the
transport transitions to Failed and the failure cascades to Session
Disconnected as soon as the silence exceeds the timeout window — after at
most timeout-plus-one ticks, which is within one
heartbeat-interval-plus-timeout; no silent half-connected state remains. -/
theorem heartbeat_timeout_cascade (T : Nat) (s : TunnelSystem)
    (hopen : s.transport = TransportState.opened)
    (hfresh : s.sinceHeartbeat = 0) :
    ∀ k, T + 1 ≤ k →
      (runTransport T s (List.replicate k TransportEvent.tick)).transport
          = TransportState.failed ∧
      (runTransport T s (List.replicate k TransportEvent.tick)).session
          = SessionStatus.disconnected := by
  intro k hk
  exact runTransport_timeout T k s hopen (by omega) (by omega)

/-- Witness for C7 at a concrete timeout and transport state. -/
theorem heartbeat_timeout_cascade_witness :
    (runTransport 2
        { transport := TransportState.opened,
          session := SessionStatus.connected, sinceHeartbeat := 0 }
        (List.replicate 3 TransportEvent.tick)).transport
      = TransportState.failed ∧
    (runTransport 2
        { transport := TransportState.opened,
          session := SessionStatus.connected, sinceHeartbeat := 0 }
        (List.replicate 3 TransportEvent.tick)).session
      = SessionStatus.disconnected :=
  heartbeat_timeout_cascade 2
    { transport := TransportState.opened,
      session := SessionStatus.connected, sinceHeartbeat := 0 }
    rfl rfl 3 (by omega)

end Telepresence
